import Mathlib

/-!
# Verification of the Pixshop Edit History & Transformation Orchestration Engine

Shallow embedding of the edit-history / transformation-orchestration core of
the Pixshop photo-editing client, together with the two concrete UI
components that are present in the repository (`components/Header.tsx`,
`components/Logo.tsx`).  The core itself (App.tsx's history state, the
service layer `services/geminiService.ts`, and the orchestration logic) is
not present in the repository sources — only its documentation is — so those
parts are modelled from the specification, as marked on each definition.
-/

/-- Modelled from the spec: `ImageResource` (§3) — an immutable binary image
payload plus a MIME/content-type tag; the pixel dimensions of the image are
carried explicitly since bounds checks (hotspot, crop) need them.  The
corresponding code (`File` objects in App.tsx) is absent from `src/`. -/
structure ImageResource where
  width : Nat
  height : Nat
  data : List Nat
  mime : String
deriving DecidableEq, Repr

/-- Modelled from the spec: `Hotspot` (§3) — an immutable pair of pixel
coordinates denoting the point of a localized edit, plus the textual
instruction for that edit.  The code (`editHotspot` in App.tsx) is absent
from `src/`. -/
structure Hotspot where
  x : Nat
  y : Nat
  instruction : String
deriving DecidableEq, Repr

/-- Modelled from the spec: the crop rectangle `{x, y, width, height}` (§3).
Coordinates are signed so that "non-positive width/height" and negative
origins are representable.  The code (CropPanel / react-image-crop usage)
is absent from `src/`. -/
structure Rect where
  x : Int
  y : Int
  width : Int
  height : Int
deriving DecidableEq, Repr

/-- Modelled from the spec: the `ErrorKind` taxonomy (§7), plus
`unsupportedFormat` from the ImageCodec contract (§4.1). -/
inductive ErrorKind where
  | invalidHotspot
  | emptyInstruction
  | invalidRegion
  | contentBlocked
  | malformedPayload
  | transportError
  | busy
  | notInitialized
  | unsupportedFormat
deriving DecidableEq, Repr

/-- Modelled from the spec: `TransformRequest` (§3) — a tagged union over
the four operation kinds, each carrying only the parameters it needs. -/
inductive TransformRequest where
  | retouch (hotspot : Hotspot)
  | filter (styleDescription : String)
  | adjustment (adjustmentDescription : String)
  | crop (rectangle : Rect)
deriving DecidableEq, Repr

/-- Modelled from the spec: `TransformOutcome` (§3) — either `Success`
carrying a resource or `Failure` carrying an error kind and detail. -/
inductive TransformOutcome where
  | success (resource : ImageResource)
  | failure (kind : ErrorKind) (detail : String)
deriving DecidableEq, Repr

/-! ## HistoryStore

Modelled from the spec (§3, §4.3): the `history` array and `historyIndex`
state of App.tsx, which are absent from `src/` (documented at
`src/unnamed/part_000` lines 113-118). -/

/-- Modelled from the spec: the HistoryStore state (§3) — `versions`, an
ordered sequence of ImageResource with index 0 the original upload, and
`cursor`, an index into `versions` denoting the displayed version. -/
structure HistoryStore where
  versions : List ImageResource
  cursor : Nat
deriving DecidableEq, Repr

namespace HistoryStore

/-- Modelled from the spec: `initialize(resource)` (§4.3) — sets
`versions=[resource]`, `cursor=0`. -/
def init (resource : ImageResource) : HistoryStore :=
  { versions := [resource], cursor := 0 }

/-- Modelled from the spec: `commit(resource)` (§4.3) — truncates
`versions` to `cursor+1` elements, appends `resource`, sets
`cursor = len(versions)-1`. -/
def commit (s : HistoryStore) (resource : ImageResource) : HistoryStore :=
  let kept := s.versions.take (s.cursor + 1)
  { versions := kept ++ [resource], cursor := (kept ++ [resource]).length - 1 }

/-- Modelled from the spec: `undo()` (§4.3) — `cursor = max(0, cursor-1)`;
a no-op when already at 0 (Nat subtraction realizes the floor). -/
def undo (s : HistoryStore) : HistoryStore :=
  { s with cursor := s.cursor - 1 }

/-- Modelled from the spec: `redo()` (§4.3) —
`cursor = min(len(versions)-1, cursor+1)`; a no-op at the end. -/
def redo (s : HistoryStore) : HistoryStore :=
  { s with cursor := min (s.versions.length - 1) (s.cursor + 1) }

/-- Modelled from the spec: `current()` (§4.3) — returns
`versions[cursor]`; `none` models the `NotInitialized` failure. -/
def current (s : HistoryStore) : Option ImageResource :=
  s.versions[s.cursor]?

/-- Modelled from the spec: `canUndo()` (§4.3) — pure query. -/
def canUndo (s : HistoryStore) : Bool :=
  0 < s.cursor

/-- Modelled from the spec: `canRedo()` (§4.3) — pure query. -/
def canRedo (s : HistoryStore) : Bool :=
  s.cursor + 1 < s.versions.length

/-- The HistoryStore invariant: initialized (versions nonempty) and the
cursor in range (invariant I1 and the range part of P1). -/
def Inv (s : HistoryStore) : Prop :=
  s.versions ≠ [] ∧ s.cursor < s.versions.length

instance (s : HistoryStore) : Decidable s.Inv := by
  unfold Inv; infer_instance

end HistoryStore

/-- Modelled from the spec: one user-issued history operation, for stating
properties over all sequences of commit/undo/redo (P1). -/
inductive HistOp where
  | commit (resource : ImageResource)
  | undo
  | redo
deriving DecidableEq, Repr

/-- Apply one history operation. -/
def applyOp (s : HistoryStore) : HistOp → HistoryStore
  | .commit r => s.commit r
  | .undo => s.undo
  | .redo => s.redo

/-- Apply a sequence of history operations, first operation first. -/
def applyOps (s : HistoryStore) (ops : List HistOp) : HistoryStore :=
  ops.foldl applyOp s

/-! ### HistoryStore lemmas -/

theorem commit_inv {s : HistoryStore} (r : ImageResource) (h : s.Inv) :
    (s.commit r).Inv := by
  obtain ⟨hne, hcur⟩ := h
  constructor
  · simp [HistoryStore.commit]
  · simp [HistoryStore.commit]

theorem undo_inv {s : HistoryStore} (h : s.Inv) : s.undo.Inv := by
  obtain ⟨hne, hcur⟩ := h
  exact ⟨hne, lt_of_le_of_lt (Nat.sub_le _ _) hcur⟩

theorem redo_inv {s : HistoryStore} (h : s.Inv) : s.redo.Inv := by
  obtain ⟨hne, hcur⟩ := h
  refine ⟨hne, ?_⟩
  have hlen : 0 < s.versions.length := List.length_pos.mpr hne
  simp only [HistoryStore.redo]
  exact lt_of_le_of_lt (Nat.min_le_left _ _) (Nat.sub_lt hlen Nat.one_pos)

theorem applyOp_inv {s : HistoryStore} (op : HistOp) (h : s.Inv) :
    (applyOp s op).Inv := by
  cases op with
  | commit r => exact commit_inv r h
  | undo => exact undo_inv h
  | redo => exact redo_inv h

theorem take_succ_head? (l : List ImageResource) (n : Nat) :
    (l.take (n + 1)).head? = l.head? := by
  cases l <;> simp

theorem commit_head? {s : HistoryStore} (r : ImageResource) (h : s.Inv) :
    (s.commit r).versions.head? = s.versions.head? := by
  obtain ⟨hne, _⟩ := h
  cases hv : s.versions with
  | nil => exact absurd hv hne
  | cons a t => simp [HistoryStore.commit, hv]

theorem applyOp_head? {s : HistoryStore} (op : HistOp) (h : s.Inv) :
    (applyOp s op).versions.head? = s.versions.head? := by
  cases op with
  | commit r => exact commit_head? r h
  | undo => rfl
  | redo => rfl

theorem applyOps_inv_head? {s : HistoryStore} (ops : List HistOp) (h : s.Inv) :
    (applyOps s ops).Inv ∧
      (applyOps s ops).versions.head? = s.versions.head? := by
  induction ops generalizing s with
  | nil => exact ⟨h, rfl⟩
  | cons op rest ih =>
    have h1 := applyOp_inv op h
    have h2 := applyOp_head? op h
    obtain ⟨ha, hb⟩ := ih h1
    exact ⟨ha, hb.trans h2⟩

/-! ## ImageCodec

Modelled from the spec (§4.1): the `fileToPart()` / base64 conversion helpers
of `services/geminiService.ts`, which are absent from `src/` (documented at
`src/unnamed/part_000` lines 120-138).  The encoded representation is a
self-delimiting byte serialization ("base64-or-equivalent" in the words of
the spec): each dimension is written as its little-endian base-255 digit
string terminated by the byte 255, followed by the raw payload bytes. -/

/-- Modelled from the spec: `TransportPayload` — the encoded representation
plus content-type required by the external generator (§4.1, §6). -/
structure TransportPayload where
  data : List Nat
  mime : String
deriving DecidableEq, Repr

/-- Modelled from the spec: the content types the external generator
accepts — PNG/JPEG/WEBP (§4.1). -/
def supportedMimes : List String :=
  ["image/png", "image/jpeg", "image/webp"]

/-- Self-delimiting serialization of a natural number: little-endian
base-255 digits followed by the terminator byte 255. -/
def natBytes (n : Nat) : List Nat :=
  Nat.digits 255 n ++ [255]

/-- Parse one `natBytes`-encoded number off the front of a byte stream,
returning the number and the remaining bytes; `none` if no terminator is
found. -/
def parseNat : List Nat → Option (Nat × List Nat)
  | [] => none
  | d :: rest =>
    if d = 255 then some (0, rest)
    else
      match parseNat rest with
      | some (n, rest') => some (d + 255 * n, rest')
      | none => none

namespace ImageCodec

/-- Modelled from the spec: `encode(resource) -> TransportPayload` (§4.1) —
deterministic, lossless encoding for the supported content types; fails
with `UnsupportedFormat` otherwise. -/
def encode (r : ImageResource) : Except ErrorKind TransportPayload :=
  if r.mime ∈ supportedMimes then
    .ok ⟨natBytes r.width ++ (natBytes r.height ++ r.data), r.mime⟩
  else
    .error .unsupportedFormat

/-- Modelled from the spec: `decode(transportPayload) -> ImageResource`
(§4.1) — inverse of `encode`; fails with `MalformedPayload` if the payload
is not validly encoded image data. -/
def decode (p : TransportPayload) : Except ErrorKind ImageResource :=
  match parseNat p.data with
  | none => .error .malformedPayload
  | some (w, rest) =>
    match parseNat rest with
    | none => .error .malformedPayload
    | some (h, payload) => .ok ⟨w, h, payload, p.mime⟩

end ImageCodec

theorem parseNat_digits (ds : List Nat) (hds : ∀ d ∈ ds, d < 255)
    (tail : List Nat) :
    parseNat (ds ++ 255 :: tail) = some (Nat.ofDigits 255 ds, tail) := by
  induction ds with
  | nil => simp [parseNat, Nat.ofDigits_nil]
  | cons d ds ih =>
    have hd : d < 255 := hds d (List.mem_cons_self d ds)
    have hne : ¬ d = 255 := Nat.ne_of_lt hd
    have ih' := ih (fun x hx => hds x (List.mem_cons_of_mem d hx))
    simp only [List.cons_append, parseNat, if_neg hne, Nat.ofDigits_cons,
      List.append_eq]
    rw [ih']

theorem parseNat_natBytes (n : Nat) (tail : List Nat) :
    parseNat (natBytes n ++ tail) = some (n, tail) := by
  have hds : ∀ d ∈ Nat.digits 255 n, d < 255 := fun d hd =>
    Nat.digits_lt_base (by norm_num) hd
  have := parseNat_digits (Nat.digits 255 n) hds tail
  simpa [natBytes, Nat.ofDigits_digits] using this

theorem codec_roundtrip (r : ImageResource) (h : r.mime ∈ supportedMimes) :
    ImageCodec.encode r =
        .ok ⟨natBytes r.width ++ (natBytes r.height ++ r.data), r.mime⟩
      ∧ ImageCodec.decode
          ⟨natBytes r.width ++ (natBytes r.height ++ r.data), r.mime⟩
          = .ok r := by
  constructor
  · simp [ImageCodec.encode, h]
  · simp [ImageCodec.decode, parseNat_natBytes, List.append_assoc]

/-! ## Crop collaborator

Modelled from the spec (§4.2, §6): the deterministic
`extractRegion(resource, rectangle)` local pixel-region extraction, which
is absent from `src/` (the spec treats it as a local bitmap-drawing
collaborator; documented at `src/unnamed/part_000` lines 120-127). -/

/-- A rectangle is rejected when it is empty, has non-positive width or
height, or lies partially or fully outside the source image bounds
(§4.2). -/
def badRect (r : ImageResource) (rect : Rect) : Prop :=
  rect.width ≤ 0 ∨ rect.height ≤ 0 ∨ rect.x < 0 ∨ rect.y < 0
    ∨ (r.width : Int) < rect.x + rect.width
    ∨ (r.height : Int) < rect.y + rect.height

instance (r : ImageResource) (rect : Rect) : Decidable (badRect r rect) := by
  unfold badRect; infer_instance

/-- Modelled from the spec: `extractRegion` — local deterministic
pixel-region extraction; fails with `InvalidRegion` on a bad rectangle
(§4.2).  Pixels are addressed row-major in the source data. -/
def extractRegion (r : ImageResource) (rect : Rect) :
    Except ErrorKind ImageResource :=
  if badRect r rect then
    .error .invalidRegion
  else
    let x := rect.x.toNat
    let y := rect.y.toNat
    let w := rect.width.toNat
    let h := rect.height.toNat
    .ok ⟨w, h,
      (List.range h).flatMap (fun row =>
        (List.range w).map (fun col =>
          r.data.getD ((y + row) * r.width + (x + col)) 0)),
      r.mime⟩

/-! ## TransformGateway

Modelled from the spec (§4.2, §6): `generateEditedImage`,
`generateFilteredImage`, `generateAdjustedImage` and `handleApiResponse`
of `services/geminiService.ts`, absent from `src/` (documented at
`src/unnamed/part_000` lines 128-144).  The untrusted external generator
is a parameter; the Bool in the result records whether the external
generator was actually called. -/

/-- Modelled from the spec: the external generator response — zero or more
typed parts (image | text) and an optional stop-reason code (§6). -/
structure GenResponse where
  imagePart : Option TransportPayload
  textPart : Option String
  finishReason : Option String
deriving DecidableEq, Repr

/-- Modelled from the spec: the external generator boundary — a request
carrying the encoded image payload and instruction text; a transport-level
error is an `Except.error` carrying its cause (§6). -/
abbrev Generator : Type :=
  TransportPayload → String → Except String GenResponse

/-- Modelled from the spec: response normalization for the AI-backed kinds
(§4.2) — image part → decode → Success (or MalformedPayload); refusal text
→ ContentBlocked with the text; neither → ContentBlocked with the
stop-reason code; transport error → TransportError with the cause. -/
def normalizeResponse (resp : Except String GenResponse) : TransformOutcome :=
  match resp with
  | .error cause => .failure .transportError cause
  | .ok g =>
    match g.imagePart with
    | some payload =>
      match ImageCodec.decode payload with
      | .ok res => .success res
      | .error _ => .failure .malformedPayload "generator image output failed to decode"
    | none =>
      match g.textPart with
      | some t => .failure .contentBlocked t
      | none => .failure .contentBlocked (g.finishReason.getD "unknown stop reason")

/-- Modelled from the spec: the instruction payload for a localized edit —
the hotspot coordinates and free-text instruction, with the system-level
safety constraint carried in the instruction text (§4.2): tonal skin
adjustments (tan, lighter, darker) are permitted; altering inferred race
or ethnicity is forbidden. -/
def retouchInstruction (hs : Hotspot) : String :=
  "Perform a localized edit at (" ++ toString hs.x ++ ", " ++ toString hs.y
    ++ "): " ++ hs.instruction
    ++ ". Tonal skin adjustments (tan, lighter, darker) are permitted; altering inferred race or ethnicity is forbidden."

namespace TransformGateway

/-- Modelled from the spec: `invoke(base, request) -> TransformOutcome`
(§4.2) — validates locally (fails fast with no external call on an
out-of-bounds hotspot, a blank description, or a bad crop rectangle),
performs crop locally, and otherwise calls the external generator and
normalizes its response.  The Bool records whether the external generator
was called. -/
def invoke (g : Generator) (base : ImageResource) (req : TransformRequest) :
    TransformOutcome × Bool :=
  match req with
  | .retouch hs =>
    if hs.x < base.width ∧ hs.y < base.height then
      match ImageCodec.encode base with
      | .error k => (.failure k "unsupported content type", false)
      | .ok payload => (normalizeResponse (g payload (retouchInstruction hs)), true)
    else
      (.failure .invalidHotspot "hotspot outside image bounds", false)
  | .filter desc =>
    if desc.trim = "" then
      (.failure .emptyInstruction "blank filter description", false)
    else
      match ImageCodec.encode base with
      | .error k => (.failure k "unsupported content type", false)
      | .ok payload => (normalizeResponse (g payload desc), true)
  | .adjustment desc =>
    if desc.trim = "" then
      (.failure .emptyInstruction "blank adjustment description", false)
    else
      match ImageCodec.encode base with
      | .error k => (.failure k "unsupported content type", false)
      | .ok payload => (normalizeResponse (g payload desc), true)
  | .crop rect =>
    (match extractRegion base rect with
     | .ok res => .success res
     | .error k => .failure k "invalid crop rectangle", false)

end TransformGateway

/-! ## EditOrchestrator

Modelled from the spec (§4.4): the `Idle/Pending` state machine that the
spec derives from App.tsx's `isLoading` flag and submit handlers, absent
from `src/` (documented at `src/unnamed/part_000` lines 109-118 and
140-144). -/

/-- Modelled from the spec: the orchestrator states (§4.4). -/
inductive OrchState where
  | idle
  | pending
deriving DecidableEq, Repr

/-- Modelled from the spec: the EditOrchestrator — its state-machine state
and the HistoryStore it owns (§4.4). -/
structure Orchestrator where
  state : OrchState
  history : HistoryStore
deriving DecidableEq, Repr

/-- Modelled from the spec: `submit(request)` (§4.4) — rejected locally
with `Busy` while `Pending` (no gateway call, no history change); in
`Idle`, goes `Pending`, invokes the gateway on the current version, and on
`Success` commits the resource to the HistoryStore while on `Failure` it
leaves the HistoryStore untouched, returning to `Idle` either way (the
whole round trip is modelled synchronously).  The Bool records whether the
external generator was called. -/
def submit (o : Orchestrator) (g : Generator) (req : TransformRequest) :
    TransformOutcome × Orchestrator × Bool :=
  match o.state with
  | .pending => (.failure .busy "a transformation is already pending", o, false)
  | .idle =>
    match o.history.current with
    | none => (.failure .notInitialized "history accessed before an image was loaded", o, false)
    | some base =>
      match TransformGateway.invoke g base req with
      | (.success res, called) =>
        (.success res, { state := .idle, history := o.history.commit res }, called)
      | (.failure k d, called) => (.failure k d, o, called)

/-- Whether an outcome is a `Failure` of any kind. -/
def TransformOutcome.isFailure : TransformOutcome → Bool
  | .failure _ _ => true
  | .success _ => false

/-! ## UI components present in the repository

Shallow embedding of `src/components/Logo.tsx` and
`src/components/Header.tsx` as virtual-DOM trees.  These two files are the
only executable sources in the repository. -/

/-- A virtual-DOM node: an element with a tag, attribute list and children,
or a text node. -/
inductive Node where
  | element (tag : String) (attrs : List (String × String)) (children : List Node)
  | text (s : String)

/-- JavaScript template-literal interpolation of a value of type
`string | undefined`: interpolating `undefined` produces the literal text
"undefined". -/
def jsTemplateArg : Option String → String
  | none => "undefined"
  | some s => s

/-- The class attribute of Logo's root div, from `Logo.tsx` line 8:
the template literal interpolates the (possibly absent) `className`
prop after the fixed utility classes. -/
def logoRootClass (className : Option String) : String :=
  "flex items-center gap-3 " ++ jsTemplateArg className

/-- The SVG subtree of the Logo component (`Logo.tsx` lines 9-22). -/
def logoSvg : Node :=
  .element "svg"
    [("width", "32"), ("height", "32"), ("viewBox", "0 0 32 32"),
     ("fill", "none"), ("xmlns", "http://www.w3.org/2000/svg"),
     ("className", "flex-shrink-0")]
    [.element "defs" []
      [.element "linearGradient"
        [("id", "logo-gradient"), ("x1", "0"), ("y1", "0"),
         ("x2", "32"), ("y2", "32")]
        [.element "stop" [("stopColor", "#3B82F6")] [],
         .element "stop" [("offset", "1"), ("stopColor", "#22D3EE")] []]],
     .element "rect"
      [("width", "32"), ("height", "32"), ("rx", "8"),
       ("fill", "url(#logo-gradient)")] [],
     .element "path"
      [("d", "M12 9H19C21.7614 9 24 11.2386 24 14C24 16.7614 21.7614 19 19 19H15V23H12V9Z"),
       ("fill", "white")] [],
     .element "path"
      [("d", "M19 12.5L17.5 14L19 15.5L20.5 14L19 12.5Z"),
       ("fill", "#3B82F6")] []]

/-- The render of the Logo component (`Logo.tsx` lines 7-27), as a function
of its optional `className` prop. -/
def logoRender (className : Option String) : Node :=
  .element "div" [("className", logoRootClass className)]
    [logoSvg,
     .element "span"
       [("className", "text-xl font-bold tracking-tight text-gray-100")]
       [.text "Pixshop"]]

/-- The render of the Header component (`Header.tsx` lines 8-16).  Header
takes no props and reads no external state; the unused parameter stands
for any ambient environment a render could in principle observe, and the
body — a faithful translation of the JSX, which references nothing beyond
literals and `Logo` with no `className` prop — does not consult it. -/
def headerRender {ε : Type} (_ : ε) : Node :=
  .element "header"
    [("className", "w-full py-4 px-8 border-b border-gray-700 bg-gray-800/30 backdrop-blur-sm sticky top-0 z-50")]
    [.element "div" [("className", "flex items-center justify-center")]
      [logoRender none]]

/-! ## Concrete fixtures used by witnesses -/

/-- A concrete 2×2 PNG resource (the original upload in scenarios). -/
def sampleImage0 : ImageResource := ⟨2, 2, [0, 1, 2, 3], "image/png"⟩

/-- A concrete 2×2 PNG resource (first edit result in scenarios). -/
def sampleImage1 : ImageResource := ⟨2, 2, [4, 5, 6, 7], "image/png"⟩

/-- A concrete 2×2 PNG resource (second edit result in scenarios). -/
def sampleImage2 : ImageResource := ⟨2, 2, [8, 9, 10, 11], "image/png"⟩

/-- A concrete 100×100 PNG resource (for the Scenario C and E bounds
checks). -/
def largeImage : ImageResource :=
  ⟨100, 100, [7], "image/png"⟩

/-- A concrete external generator that always fails at the transport
level; used only to instantiate theorems at closed inputs. -/
def nullGenerator : Generator := fun _ _ => .error "network unavailable"

/-- A concrete orchestrator with a transformation already pending. -/
def pendingOrch : Orchestrator := ⟨.pending, HistoryStore.init sampleImage0⟩

/-- Scenario D (§8): initialize with `sampleImage0`, commit `sampleImage1`,
undo back to the original, then commit `sampleImage2`. -/
def scenarioD : HistoryStore :=
  (((HistoryStore.init sampleImage0).commit sampleImage1).undo).commit sampleImage2

/-- `l[0]?` agrees with `head?`. -/
theorem getElem?_zero_head? (l : List ImageResource) : l[0]? = l.head? := by
  cases l <;> simp

/-! ## The claims -/

/-- C1: for every sequence of commit/undo/redo operations on an
initialized HistoryStore, the cursor stays within `[0, len(versions)-1]`
(the lower bound holds because the cursor is a natural number), `versions`
is never empty, and `versions[0]` — the original upload — never changes. -/
theorem claim_C1_history_invariants (s : HistoryStore) (ops : List HistOp)
    (h : s.Inv) :
    (applyOps s ops).versions ≠ []
    ∧ (applyOps s ops).cursor ≤ (applyOps s ops).versions.length - 1
    ∧ (applyOps s ops).versions[0]? = s.versions[0]? := by
  obtain ⟨⟨hne, hcur⟩, hhead⟩ := applyOps_inv_head? ops h
  refine ⟨hne, ?_, ?_⟩
  · omega
  · rw [getElem?_zero_head?, getElem?_zero_head?]
    exact hhead

/-- Witness for C1 at a concrete initialized store and operation
sequence. -/
theorem claim_C1_witness :
    (HistoryStore.init sampleImage0).Inv
    ∧ ((applyOps (HistoryStore.init sampleImage0)
          [HistOp.commit sampleImage1, HistOp.undo,
           HistOp.commit sampleImage2, HistOp.redo]).versions ≠ []
      ∧ (applyOps (HistoryStore.init sampleImage0)
          [HistOp.commit sampleImage1, HistOp.undo,
           HistOp.commit sampleImage2, HistOp.redo]).cursor
          ≤ (applyOps (HistoryStore.init sampleImage0)
              [HistOp.commit sampleImage1, HistOp.undo,
               HistOp.commit sampleImage2, HistOp.redo]).versions.length - 1
      ∧ (applyOps (HistoryStore.init sampleImage0)
          [HistOp.commit sampleImage1, HistOp.undo,
           HistOp.commit sampleImage2, HistOp.redo]).versions[0]?
          = (HistoryStore.init sampleImage0).versions[0]?) :=
  ⟨by decide,
   claim_C1_history_invariants (HistoryStore.init sampleImage0)
     [HistOp.commit sampleImage1, HistOp.undo,
      HistOp.commit sampleImage2, HistOp.redo] (by decide)⟩

/-- C2: for every submit whose outcome is a `Failure` of any kind, the
HistoryStore's versions sequence and cursor are identical before and
after the call — a failed transformation never modifies history. -/
theorem claim_C2_atomic_failure (o : Orchestrator) (g : Generator)
    (req : TransformRequest)
    (h : ((submit o g req).1).isFailure = true) :
    ((submit o g req).2.1).history.versions = o.history.versions
    ∧ ((submit o g req).2.1).history.cursor = o.history.cursor := by
  have key : (submit o g req).2.1.history = o.history := by
    cases hst : o.state with
    | pending => simp [submit, hst]
    | idle =>
      cases hc : o.history.current with
      | none => simp [submit, hst, hc]
      | some base =>
        rcases hi : TransformGateway.invoke g base req with ⟨out, called⟩
        cases out with
        | success res =>
          exfalso
          have hres : (submit o g req).1 = .success res := by
            simp [submit, hst, hc, hi]
          rw [hres] at h
          simp [TransformOutcome.isFailure] at h
        | failure k d => simp [submit, hst, hc, hi]
  rw [key]
  exact ⟨rfl, rfl⟩

/-- Witness for C2 at a concrete failing submit (busy rejection). -/
theorem claim_C2_witness :
    ((submit pendingOrch nullGenerator (.filter "vintage sepia")).1).isFailure
        = true
    ∧ (((submit pendingOrch nullGenerator (.filter "vintage sepia")).2.1).history.versions
        = pendingOrch.history.versions
      ∧ ((submit pendingOrch nullGenerator (.filter "vintage sepia")).2.1).history.cursor
        = pendingOrch.history.cursor) :=
  ⟨by decide,
   claim_C2_atomic_failure pendingOrch nullGenerator (.filter "vintage sepia")
     (by decide)⟩

/-- C3: a submit issued while the orchestrator is `Pending` (in any such
state, hence in every reachable one) returns the `Busy` error, leaves the
orchestrator — and with it the HistoryStore — unchanged, and never
invokes the TransformGateway: the result is a fixed value that does not
depend on the generator, and the generator-called flag is `false`. -/
theorem claim_C3_single_flight (o : Orchestrator) (g : Generator)
    (req : TransformRequest) (h : o.state = .pending) :
    submit o g req
      = (.failure .busy "a transformation is already pending", o, false) := by
  simp [submit, h]

/-- Witness for C3 at a concrete pending orchestrator. -/
theorem claim_C3_witness :
    pendingOrch.state = .pending
    ∧ submit pendingOrch nullGenerator (.adjustment "increase brightness")
        = (.failure .busy "a transformation is already pending",
           pendingOrch, false) :=
  ⟨rfl,
   claim_C3_single_flight pendingOrch nullGenerator
     (.adjustment "increase brightness") rfl⟩

/-- C4: for every initialized HistoryStore, `commit(resource)` truncates
`versions` to `cursor+1` elements, appends the resource, and sets the
cursor to the new last index; in particular (Scenario D) committing after
an undo discards the redo-able versions: the scenario-D store is
`[sampleImage0, sampleImage2]` with cursor 1 and `canRedo() = false`. -/
theorem claim_C4_commit (s : HistoryStore) (r : ImageResource)
    (h : s.Inv) :
    (s.commit r).versions = s.versions.take (s.cursor + 1) ++ [r]
    ∧ (s.commit r).versions.length = s.cursor + 2
    ∧ (s.commit r).cursor = (s.commit r).versions.length - 1
    ∧ (s.commit r).canRedo = false
    ∧ (scenarioD.versions = [sampleImage0, sampleImage2]
        ∧ scenarioD.cursor = 1 ∧ scenarioD.canRedo = false) := by
  obtain ⟨hne, hcur⟩ := h
  refine ⟨rfl, ?_, rfl, ?_, by decide⟩
  · simp [HistoryStore.commit, List.length_take]
    omega
  · simp [HistoryStore.canRedo, HistoryStore.commit]

/-- Witness for C4 at the store of Scenario D just before its final
commit. -/
theorem claim_C4_witness :
    (HistoryStore.mk [sampleImage0, sampleImage1] 0).Inv
    ∧ (((HistoryStore.mk [sampleImage0, sampleImage1] 0).commit sampleImage2).versions
          = (HistoryStore.mk [sampleImage0, sampleImage1] 0).versions.take
              ((HistoryStore.mk [sampleImage0, sampleImage1] 0).cursor + 1)
            ++ [sampleImage2]
      ∧ ((HistoryStore.mk [sampleImage0, sampleImage1] 0).commit sampleImage2).versions.length
          = (HistoryStore.mk [sampleImage0, sampleImage1] 0).cursor + 2
      ∧ ((HistoryStore.mk [sampleImage0, sampleImage1] 0).commit sampleImage2).cursor
          = ((HistoryStore.mk [sampleImage0, sampleImage1] 0).commit sampleImage2).versions.length - 1
      ∧ ((HistoryStore.mk [sampleImage0, sampleImage1] 0).commit sampleImage2).canRedo = false
      ∧ (scenarioD.versions = [sampleImage0, sampleImage2]
          ∧ scenarioD.cursor = 1 ∧ scenarioD.canRedo = false)) :=
  ⟨by decide,
   claim_C4_commit (HistoryStore.mk [sampleImage0, sampleImage1] 0)
     sampleImage2 (by decide)⟩

/-- C5: for every initialized HistoryStore, `undo()` sets the cursor to
`max(0, cursor-1)` and is a no-op (not an error) at 0, `redo()` sets the
cursor to `min(len(versions)-1, cursor+1)` and is a no-op at the last
index, and neither operation changes the versions sequence. -/
theorem claim_C5_undo_redo (s : HistoryStore) (h : s.Inv) :
    ((s.undo.cursor : Int) = max 0 ((s.cursor : Int) - 1))
    ∧ s.undo.versions = s.versions
    ∧ (s.cursor = 0 → s.undo = s)
    ∧ s.redo.cursor = min (s.versions.length - 1) (s.cursor + 1)
    ∧ s.redo.versions = s.versions
    ∧ (s.cursor = s.versions.length - 1 → s.redo = s) := by
  obtain ⟨hne, hcur⟩ := h
  refine ⟨?_, rfl, ?_, rfl, rfl, ?_⟩
  · simp only [HistoryStore.undo]
    omega
  · intro h0
    cases s with
    | mk v c => simp_all [HistoryStore.undo]
  · intro hend
    cases s with
    | mk v c =>
      simp only [HistoryStore.redo, HistoryStore.mk.injEq, true_and]
      simp only at hend
      omega

/-- Witness for C5 at a concrete two-version store positioned at the
end. -/
theorem claim_C5_witness :
    (HistoryStore.mk [sampleImage0, sampleImage1] 1).Inv
    ∧ ((((HistoryStore.mk [sampleImage0, sampleImage1] 1).undo.cursor : Int)
          = max 0 (((HistoryStore.mk [sampleImage0, sampleImage1] 1).cursor : Int) - 1))
      ∧ (HistoryStore.mk [sampleImage0, sampleImage1] 1).undo.versions
          = (HistoryStore.mk [sampleImage0, sampleImage1] 1).versions
      ∧ ((HistoryStore.mk [sampleImage0, sampleImage1] 1).cursor = 0 →
          (HistoryStore.mk [sampleImage0, sampleImage1] 1).undo
            = HistoryStore.mk [sampleImage0, sampleImage1] 1)
      ∧ (HistoryStore.mk [sampleImage0, sampleImage1] 1).redo.cursor
          = min ((HistoryStore.mk [sampleImage0, sampleImage1] 1).versions.length - 1)
              ((HistoryStore.mk [sampleImage0, sampleImage1] 1).cursor + 1)
      ∧ (HistoryStore.mk [sampleImage0, sampleImage1] 1).redo.versions
          = (HistoryStore.mk [sampleImage0, sampleImage1] 1).versions
      ∧ ((HistoryStore.mk [sampleImage0, sampleImage1] 1).cursor
            = (HistoryStore.mk [sampleImage0, sampleImage1] 1).versions.length - 1 →
          (HistoryStore.mk [sampleImage0, sampleImage1] 1).redo
            = HistoryStore.mk [sampleImage0, sampleImage1] 1)) :=
  ⟨by decide,
   claim_C5_undo_redo (HistoryStore.mk [sampleImage0, sampleImage1] 1)
     (by decide)⟩

/-- C6: for every Retouch request whose hotspot lies outside the bounds of
the base image, `TransformGateway.invoke` fails with `InvalidHotspot`
without calling the external generator (the generator-called flag is
`false` and the result is a fixed value independent of the generator),
and a submit of that request leaves the orchestrator — hence the current
history version — unchanged. -/
theorem claim_C6_invalid_hotspot (o : Orchestrator) (g : Generator)
    (hs : Hotspot) (base : ImageResource)
    (hidle : o.state = .idle)
    (hcur : o.history.current = some base)
    (hout : ¬(hs.x < base.width ∧ hs.y < base.height)) :
    TransformGateway.invoke g base (.retouch hs)
        = (.failure .invalidHotspot "hotspot outside image bounds", false)
    ∧ submit o g (.retouch hs)
        = (.failure .invalidHotspot "hotspot outside image bounds",
           o, false) := by
  have h1 : TransformGateway.invoke g base (.retouch hs)
      = (.failure .invalidHotspot "hotspot outside image bounds", false) := by
    simp [TransformGateway.invoke, hout]
  refine ⟨h1, ?_⟩
  simp [submit, hidle, hcur, h1]

/-- Witness for C6: hotspot (9999, 9999) on a 100×100 image (Scenario
C). -/
theorem claim_C6_witness :
    (Orchestrator.mk .idle (HistoryStore.init largeImage)).state = .idle
    ∧ (Orchestrator.mk .idle (HistoryStore.init largeImage)).history.current
        = some largeImage
    ∧ ¬((Hotspot.mk 9999 9999 "remove blemish").x < largeImage.width
        ∧ (Hotspot.mk 9999 9999 "remove blemish").y < largeImage.height)
    ∧ (TransformGateway.invoke nullGenerator largeImage
          (.retouch (Hotspot.mk 9999 9999 "remove blemish"))
          = (.failure .invalidHotspot "hotspot outside image bounds", false)
      ∧ submit (Orchestrator.mk .idle (HistoryStore.init largeImage))
          nullGenerator (.retouch (Hotspot.mk 9999 9999 "remove blemish"))
          = (.failure .invalidHotspot "hotspot outside image bounds",
             Orchestrator.mk .idle (HistoryStore.init largeImage), false)) :=
  ⟨rfl, by decide, by decide,
   claim_C6_invalid_hotspot (Orchestrator.mk .idle (HistoryStore.init largeImage))
     nullGenerator (Hotspot.mk 9999 9999 "remove blemish") largeImage
     rfl (by decide) (by decide)⟩

/-- C7: for every ImageResource with a supported content type
(PNG/JPEG/WEBP), decode after encode succeeds and yields an equal
resource — encode (a pure function, hence deterministic) is lossless and
decode is its inverse — and encode fails with `UnsupportedFormat` for any
other content type. -/
theorem claim_C7_codec (r : ImageResource) :
    (r.mime ∈ supportedMimes →
      ∃ p, ImageCodec.encode r = .ok p ∧ ImageCodec.decode p = .ok r)
    ∧ (r.mime ∉ supportedMimes →
      ImageCodec.encode r = .error .unsupportedFormat) := by
  constructor
  · intro h
    obtain ⟨he, hd⟩ := codec_roundtrip r h
    exact ⟨_, he, hd⟩
  · intro h
    simp [ImageCodec.encode, h]

/-- Witness for C7 at a concrete PNG resource and a concrete unsupported
resource. -/
theorem claim_C7_witness :
    (sampleImage0.mime ∈ supportedMimes
      ∧ ∃ p, ImageCodec.encode sampleImage0 = .ok p
          ∧ ImageCodec.decode p = .ok sampleImage0)
    ∧ ((ImageResource.mk 1 1 [0] "image/gif").mime ∉ supportedMimes
      ∧ ImageCodec.encode (ImageResource.mk 1 1 [0] "image/gif")
          = .error .unsupportedFormat) :=
  ⟨⟨by decide, (claim_C7_codec sampleImage0).1 (by decide)⟩,
   ⟨by decide, (claim_C7_codec (ImageResource.mk 1 1 [0] "image/gif")).2 (by decide)⟩⟩

/-- C8: crop is deterministic — `extractRegion` applied twice to the same
resource and rectangle yields the identical output — the crop path of the
gateway never calls the external generator (its result is independent of
the generator and the generator-called flag is `false`), and every empty,
non-positive, or out-of-bounds rectangle fails with `InvalidRegion`. -/
theorem claim_C8_crop (r : ImageResource) (rect : Rect)
    (g g' : Generator) :
    extractRegion r rect = extractRegion r rect
    ∧ (TransformGateway.invoke g r (.crop rect)).2 = false
    ∧ TransformGateway.invoke g r (.crop rect)
        = TransformGateway.invoke g' r (.crop rect)
    ∧ (badRect r rect →
        extractRegion r rect = .error .invalidRegion
        ∧ TransformGateway.invoke g r (.crop rect)
            = (.failure .invalidRegion "invalid crop rectangle", false)) := by
  refine ⟨rfl, ?_, rfl, ?_⟩
  · cases hE : extractRegion r rect <;>
      simp [TransformGateway.invoke, hE]
  · intro hbad
    have hE : extractRegion r rect = .error .invalidRegion := by
      simp [extractRegion, hbad]
    exact ⟨hE, by simp [TransformGateway.invoke, hE]⟩

/-- Witness for C8: the rectangle (80, 80, 50, 50) on a 100×100 image
(Scenario E's invalid case). -/
theorem claim_C8_witness :
    (extractRegion largeImage (Rect.mk 80 80 50 50)
        = extractRegion largeImage (Rect.mk 80 80 50 50)
      ∧ (TransformGateway.invoke nullGenerator largeImage
          (.crop (Rect.mk 80 80 50 50))).2 = false
      ∧ TransformGateway.invoke nullGenerator largeImage
            (.crop (Rect.mk 80 80 50 50))
          = TransformGateway.invoke nullGenerator largeImage
              (.crop (Rect.mk 80 80 50 50))
      ∧ (badRect largeImage (Rect.mk 80 80 50 50) →
          extractRegion largeImage (Rect.mk 80 80 50 50)
              = .error .invalidRegion
          ∧ TransformGateway.invoke nullGenerator largeImage
                (.crop (Rect.mk 80 80 50 50))
              = (.failure .invalidRegion "invalid crop rectangle", false)))
    ∧ badRect largeImage (Rect.mk 80 80 50 50) :=
  ⟨claim_C8_crop largeImage (Rect.mk 80 80 50 50) nullGenerator nullGenerator,
   by decide⟩

/-- C9: when the Logo component is rendered without a `className` prop —
exactly as the Header component renders it — the class attribute of its
root div is the template interpolation of `undefined`, so it contains the
literal text "undefined". -/
theorem claim_C9_logo_undefined_class :
    logoRootClass none = "flex items-center gap-3 undefined"
    ∧ List.IsInfix ("undefined".data) ((logoRootClass none).data)
    ∧ ∃ attrs children,
        headerRender () = Node.element "header" attrs
          [Node.element "div"
            [("className", "flex items-center justify-center")]
            [Node.element "div"
              [("className", "flex items-center gap-3 undefined")]
              children]] := by
  have hclass : logoRootClass none = "flex items-center gap-3 undefined" := by
    decide
  refine ⟨hclass, by decide, ?_⟩
  refine ⟨[("className", "w-full py-4 px-8 border-b border-gray-700 bg-gray-800/30 backdrop-blur-sm sticky top-0 z-50")],
    [logoSvg,
     Node.element "span"
       [("className", "text-xl font-bold tracking-tight text-gray-100")]
       [Node.text "Pixshop"]], ?_⟩
  unfold headerRender logoRender
  rw [hclass]

/-- C10: the Header component's render is a pure constant — it takes no
props and its body references nothing beyond literals and the Logo
component with no `className` prop — so renders in any two environments
(of any two types) produce identical output. -/
theorem claim_C10_header_constant {α β : Type} (e₁ : α) (e₂ : β) :
    headerRender e₁ = headerRender e₂ := rfl
